import Mathlib

/-!
Verification development for the snake-game simulation core in src/src/lib.rs.
The Rust source is shallowly embedded: i16 coordinates become Int (every value
that actually flows through the game stays within a few units of the grid range
[0, 25), far from the i16 boundaries, so plain Int arithmetic is faithful
there; a 16-bit-faithful variant of the wraparound helper is given separately
for claims that quantify over the whole i16 range), the LinkedList body becomes
a Lean List with push_front as cons, push_back as append, and pop_back as
dropLast, the wall clock becomes a Nat millisecond timestamp supplied to each
tick, and the thread-local RNG becomes an oracle value supplied to each call
that draws from it.
-/

namespace Snake

/-- GRID_SIZE from the source: the playing field is 25 by 25 cells. -/
def GRID_SIZE : Int × Int := (25, 25)

/-- MS_PER_FRAME from the source: (1.0 / 8.0 * 1000.0) as u64 = 125. -/
def MS_PER_FRAME : Nat := 125

/-- The ModulusSigned trait instantiated at mathematical integers:
(v % n + n) % n with Rust % (truncated remainder, Int.tmod). All game call
sites pass v within one unit of [0, 25) and n = 25, where i16 overflow is
impossible, so this is the faithful embedding for the game itself. -/
def modulus_signed (v n : Int) : Int := (Int.tmod v n + n).tmod n

/-- Reduction of an integer into the two-complement i16 window
[-32768, 32767], modelling wrapping 16-bit overflow. -/
def wrap16 (x : Int) : Int := (x + 32768) % 65536 - 32768

/-- The ModulusSigned trait at i16 with 16-bit wrapping semantics: the sum
v % n + n is the one arithmetic step that can overflow i16, and the final
remainder is reduced as well for faithfulness. -/
def modulus_signed_i16 (v n : Int) : Int :=
  wrap16 ((wrap16 (Int.tmod v n + n)).tmod n)

/-- The four movement directions of the source enum. -/
inductive Direction where
  | Up
  | Down
  | Left
  | Right
  deriving DecidableEq

/-- Direction::inverse from the source. -/
def Direction.inverse : Direction → Direction
  | .Up => .Down
  | .Down => .Up
  | .Left => .Right
  | .Right => .Left

/-- GridPosition from the source: a pair of (i16) coordinates. -/
structure GridPosition where
  x : Int
  y : Int
  deriving DecidableEq

/-- GridPosition::new. -/
def GridPosition.new (x y : Int) : GridPosition := ⟨x, y⟩

/-- Models GridPosition::random: rng.gen_range(0..max_x) and
rng.gen_range(0..max_y) are external draws; the pair actually drawn is
supplied as the oracle argument and returned unchanged. The RNG contract of
gen_range(0..max) guarantees the draw lies in [0, max); theorems that need
this take it as a hypothesis on the oracle. -/
def GridPosition.random (max_x max_y : Int) (draw : GridPosition) : GridPosition :=
  draw

/-- GridPosition::new_from_move: step one cell in the given direction,
wrapping the moved axis by signed modulus of the grid dimension; the other
axis is passed through unchanged. -/
def GridPosition.new_from_move (position : GridPosition) (direction : Direction) :
    GridPosition :=
  match direction with
  | .Up => GridPosition.new position.x (modulus_signed (position.y - 1) GRID_SIZE.2)
  | .Down => GridPosition.new position.x (modulus_signed (position.y + 1) GRID_SIZE.2)
  | .Left => GridPosition.new (modulus_signed (position.x - 1) GRID_SIZE.1) position.y
  | .Right => GridPosition.new (modulus_signed (position.x + 1) GRID_SIZE.1) position.y

/-- Segment from the source: one occupied cell of the organism. -/
structure Segment where
  position : GridPosition
  deriving DecidableEq

/-- Segment::new. -/
def Segment.new (position : GridPosition) : Segment := ⟨position⟩

/-- Food from the source: the single active food item. -/
structure Food where
  position : GridPosition
  deriving DecidableEq

/-- Food::new. -/
def Food.new (position : GridPosition) : Food := ⟨position⟩

/-- Collision from the source: the outcome tag of a completed move. -/
inductive Collision where
  | Food
  | Itself
  deriving DecidableEq

/-- Player from the source: head segment, ordered body (front = newest),
current direction, outcome of the last move, and the direction used by the
most recent completed move. -/
structure Player where
  head : Segment
  body : List Segment
  direction : Direction
  collision : Option Collision
  last_update_direction : Direction
  deriving DecidableEq

/-- Player::new: head at the given position, a single trailing body segment
one cell to its left, facing Right. -/
def Player.new (position : GridPosition) : Player :=
  { head := Segment.new position
    body := [Segment.new ⟨position.x - 1, position.y⟩]
    direction := Direction.Right
    collision := none
    last_update_direction := Direction.Right }

/-- Player::eats: head occupies the food cell. -/
def Player.eats (p : Player) (food : Food) : Bool :=
  decide (p.head.position = food.position)

/-- Player::collides_with_itself: some body segment occupies the head cell. -/
def Player.collides_with_itself (p : Player) : Bool :=
  p.body.any (fun segment => decide (p.head.position = segment.position))

/-- Player::update, the per-tick move: compute the new head cell, push the
old head onto the front of the body, install the new head, classify the
outcome (self-collision first, then food, else none), pop the tail segment
only when the outcome is none, and record the direction used. -/
def Player.update (p : Player) (food : Food) : Player :=
  let new_head := Segment.new (GridPosition.new_from_move p.head.position p.direction)
  let moved : Player := { p with body := p.head :: p.body, head := new_head }
  let checked : Player :=
    if moved.collides_with_itself then { moved with collision := some Collision.Itself }
    else if moved.eats food then { moved with collision := some Collision.Food }
    else { moved with collision := none }
  let trimmed : Player :=
    if checked.collision = none then { checked with body := checked.body.dropLast }
    else checked
  { trimmed with last_update_direction := p.direction }

/-- GameState from the source: one player, one food, the game-over flag, and
the timestamp of the last accepted tick. -/
structure GameState where
  player : Player
  food : Food
  game_over : Bool
  last_update : Nat
  deriving DecidableEq

/-- GameState::new: player at (GRID_SIZE.0 / 4, GRID_SIZE.1 / 2), food at a
random cell (oracle draw), game not over; the creation time is the initial
last_update timestamp. -/
def GameState.new (food_draw : GridPosition) (t : Nat) : GameState :=
  { player := Player.new ⟨GRID_SIZE.1 / 4, GRID_SIZE.2 / 2⟩
    food := Food.new (GridPosition.random GRID_SIZE.1 GRID_SIZE.2 food_draw)
    game_over := false
    last_update := t }

/-- GameState::update, one tick request at wall-clock time now with RNG
oracle r: below the frame interval it is a no-op; on game over it rebuilds
player and food and clears the flag, returning before the timestamp update;
otherwise it moves the player, relocates the food on a Food collision or
sets game over on an Itself collision, and records now as last_update. -/
def GameState.update (s : GameState) (now : Nat) (r : GridPosition) : GameState :=
  if now - s.last_update < MS_PER_FRAME then s
  else if s.game_over then
    { player := Player.new ⟨GRID_SIZE.1 / 4, GRID_SIZE.2 / 2⟩
      food := Food.new (GridPosition.random GRID_SIZE.1 GRID_SIZE.2 r)
      game_over := false
      last_update := s.last_update }
  else
    let player1 := s.player.update s.food
    let s1 : GameState := { s with player := player1 }
    let s2 : GameState :=
      match player1.collision with
      | some Collision.Food =>
          { s1 with food := { s1.food with
              position := GridPosition.random GRID_SIZE.1 GRID_SIZE.2 r } }
      | some Collision.Itself => { s1 with game_over := true }
      | none => s1
    { s2 with last_update := now }

/-- GameState::key_down_event after KeyboardListener::from_keycode: an
unmapped key does nothing; a mapped direction is applied unless its inverse
is the direction of the last completed move. -/
def GameState.key_down_event (s : GameState) (key : Option Direction) : GameState :=
  match key with
  | none => s
  | some direction =>
      if direction.inverse ≠ s.player.last_update_direction then
        { s with player := { s.player with direction := direction } }
      else s

/-- Session states reachable from a fresh GameState by tick requests and key
events, over all clock times and RNG oracles. -/
inductive Reachable : GameState → Prop where
  | init : ∀ (r : GridPosition) (t : Nat), Reachable (GameState.new r t)
  | tick : ∀ (s : GameState) (now : Nat) (r : GridPosition),
      Reachable s → Reachable (s.update now r)
  | key : ∀ (s : GameState) (k : Option Direction),
      Reachable s → Reachable (s.key_down_event k)

/-- A coordinate pair lies on the 25 by 25 grid. -/
def inGrid (p : GridPosition) : Prop :=
  0 ≤ p.x ∧ p.x < GRID_SIZE.1 ∧ 0 ≤ p.y ∧ p.y < GRID_SIZE.2

/-- The unit displacement of each direction, as written in the spec. -/
def unit_vector : Direction → Int × Int
  | .Up => (0, -1)
  | .Down => (0, 1)
  | .Left => (-1, 0)
  | .Right => (1, 0)

/-! ### Arithmetic lemmas about the wraparound helper -/

lemma GRID_SIZE_fst : GRID_SIZE.1 = 25 := rfl

lemma GRID_SIZE_snd : GRID_SIZE.2 = 25 := rfl

lemma tmod_emod (v n : Int) : Int.tmod v n % n = v % n := by
  conv_rhs => rw [← Int.tmod_add_tdiv v n]
  rw [Int.add_mul_emod_self_left]

lemma neg_tmod (a b : Int) : Int.tmod (-a) b = -Int.tmod a b := by
  rw [Int.tmod_def, Int.tmod_def, Int.neg_tdiv]
  ring

lemma tmod_bounds (v n : Int) (hn : 0 < n) : -n < Int.tmod v n ∧ Int.tmod v n < n := by
  rcases le_or_lt 0 v with hv | hv
  · have h1 : 0 ≤ Int.tmod v n := Int.tmod_nonneg n hv
    have h2 : Int.tmod v n < n := Int.tmod_lt_of_pos v hn
    omega
  · have hv2 : 0 ≤ -v := by omega
    have h1 : 0 ≤ Int.tmod (-v) n := Int.tmod_nonneg n hv2
    have h2 : Int.tmod (-v) n < n := Int.tmod_lt_of_pos (-v) hn
    have h3 : Int.tmod (-v) n = -Int.tmod v n := neg_tmod v n
    omega

lemma modulus_signed_eq_emod (v n : Int) (hn : 0 < n) : modulus_signed v n = v % n := by
  unfold modulus_signed
  obtain ⟨h1, h2⟩ := tmod_bounds v n hn
  rw [Int.tmod_eq_emod (by omega) (le_of_lt hn), Int.add_emod_self, tmod_emod]

lemma modulus_signed_mem (v n : Int) (hn : 0 < n) :
    0 ≤ modulus_signed v n ∧ modulus_signed v n < n := by
  rw [modulus_signed_eq_emod v n hn]
  exact ⟨Int.emod_nonneg v (by omega), Int.emod_lt_of_pos v hn⟩

lemma wrap16_eq_self (x : Int) (h1 : -32768 ≤ x) (h2 : x ≤ 32767) : wrap16 x = x := by
  unfold wrap16
  rw [Int.emod_eq_of_lt (by omega) (by omega)]
  omega

lemma modulus_signed_i16_eq_emod (v n : Int) (hn : 0 < n) (hn2 : n ≤ 16384) :
    modulus_signed_i16 v n = v % n := by
  unfold modulus_signed_i16
  obtain ⟨h1, h2⟩ := tmod_bounds v n hn
  rw [wrap16_eq_self (Int.tmod v n + n) (by omega) (by omega),
    Int.tmod_eq_emod (by omega) (le_of_lt hn), Int.add_emod_self, tmod_emod]
  have h3 : 0 ≤ v % n := Int.emod_nonneg v (by omega)
  have h4 : v % n < n := Int.emod_lt_of_pos v hn
  exact wrap16_eq_self (v % n) (by omega) (by omega)

/-- C6 counterexample: at grid dimension W = 16385 (representable in i16) and
v = 16384, the sum v % W + W overflows i16 and the wrapped computation
returns -16382, which is not in [0, W); the claim as stated over all
representable W and v is therefore false. -/
theorem modulus_signed_i16_out_of_range :
    ¬ (0 ≤ modulus_signed_i16 16384 16385 ∧ modulus_signed_i16 16384 16385 < 16385) := by
  decide

/-- C6 amended: for grid dimensions 0 < W ≤ 16384 (so that v % W + W cannot
overflow i16) and every i16 value v, the wrapped value ((v % W) + W) % W lies
in [0, W), and shifting v by W does not change it as long as v + W is itself
representable. -/
theorem modulus_signed_i16_range (v W : Int) (hv1 : -32768 ≤ v) (hv2 : v ≤ 32767)
    (hW1 : 0 < W) (hW2 : W ≤ 16384) :
    (0 ≤ modulus_signed_i16 v W ∧ modulus_signed_i16 v W < W) ∧
    (v + W ≤ 32767 → modulus_signed_i16 (v + W) W = modulus_signed_i16 v W) := by
  have h1 := modulus_signed_i16_eq_emod v W hW1 hW2
  refine ⟨?_, ?_⟩
  · rw [h1]
    exact ⟨Int.emod_nonneg v (by omega), Int.emod_lt_of_pos v hW1⟩
  · intro hrep
    rw [h1, modulus_signed_i16_eq_emod (v + W) W hW1 hW2, Int.add_emod_self]

/-- Witness for the amended C6 theorem at v = -1, W = 25: the result is
nonnegative, below 25, and invariant under shifting by 25. -/
theorem modulus_signed_i16_range_witness :
    (0 ≤ modulus_signed_i16 (-1) 25 ∧ modulus_signed_i16 (-1) 25 < 25) ∧
    modulus_signed_i16 (-1 + 25) 25 = modulus_signed_i16 (-1) 25 :=
  ⟨(modulus_signed_i16_range (-1) 25 (by decide) (by decide) (by decide) (by decide)).1,
   (modulus_signed_i16_range (-1) 25 (by decide) (by decide) (by decide) (by decide)).2
     (by decide)⟩

/-- C7: from any on-grid position, the moved cell is the head position plus
the unit vector of the facing direction with each axis wrapped by the signed
modulus of its grid dimension (the unaffected axis is unchanged, and wrapping
it is the identity on the grid), and the result is again on the grid. -/
theorem new_from_move_spec (p : GridPosition) (d : Direction) (h : inGrid p) :
    GridPosition.new_from_move p d =
      { x := modulus_signed (p.x + (unit_vector d).1) GRID_SIZE.1
        y := modulus_signed (p.y + (unit_vector d).2) GRID_SIZE.2 } ∧
    inGrid (GridPosition.new_from_move p d) := by
  have hx1 : (0 : Int) ≤ p.x := h.1
  have hx2 : p.x < 25 := h.2.1
  have hy1 : (0 : Int) ≤ p.y := h.2.2.1
  have hy2 : p.y < 25 := h.2.2.2
  have h25 : (0 : Int) < 25 := by decide
  cases d <;>
    refine ⟨?_, ?_, ?_, ?_, ?_⟩ <;>
    simp only [GridPosition.new_from_move, GridPosition.new, unit_vector, inGrid,
      GRID_SIZE_fst, GRID_SIZE_snd, GridPosition.mk.injEq, true_and, and_true,
      modulus_signed_eq_emod _ 25 h25] <;>
    omega

/-- Witness for C7 at position (0, 0) facing Up: the move wraps to (0, 24). -/
theorem new_from_move_spec_witness :
    GridPosition.new_from_move ⟨0, 0⟩ Direction.Up =
      { x := modulus_signed ((0 : Int) + (unit_vector Direction.Up).1) GRID_SIZE.1
        y := modulus_signed ((0 : Int) + (unit_vector Direction.Up).2) GRID_SIZE.2 } ∧
    inGrid (GridPosition.new_from_move ⟨0, 0⟩ Direction.Up) :=
  new_from_move_spec ⟨0, 0⟩ Direction.Up
    (by refine ⟨?_, ?_, ?_, ?_⟩ <;> simp [GRID_SIZE_fst, GRID_SIZE_snd])

/-! ### Case analysis of Player.update -/

lemma collides_iff (p : Player) :
    p.collides_with_itself = true ↔ p.head.position ∈ p.body.map Segment.position := by
  simp only [Player.collides_with_itself, List.any_eq_true, decide_eq_true_eq, List.mem_map]
  constructor
  · rintro ⟨s, hs, h⟩
    exact ⟨s, hs, h.symm⟩
  · rintro ⟨s, hs, h⟩
    exact ⟨s, hs, h.symm⟩

lemma collides_false_iff (p : Player) :
    p.collides_with_itself = false ↔ p.head.position ∉ p.body.map Segment.position := by
  rw [← collides_iff]
  cases p.collides_with_itself <;> simp

/-- The move hits the body: the pushed body is kept whole and the outcome is
Itself, regardless of where the food is. -/
lemma update_eq_of_mem (p : Player) (f : Food)
    (h1 : GridPosition.new_from_move p.head.position p.direction ∈
      (p.head :: p.body).map Segment.position) :
    p.update f =
      { head := Segment.new (GridPosition.new_from_move p.head.position p.direction)
        body := p.head :: p.body
        direction := p.direction
        collision := some Collision.Itself
        last_update_direction := p.direction } := by
  have hb : Player.collides_with_itself
      { p with body := p.head :: p.body
               head := Segment.new (GridPosition.new_from_move p.head.position p.direction) }
      = true := by
    rw [collides_iff]
    simpa using h1
  simp only [Player.update]
  rw [hb]
  rfl

/-- The move is clean and lands on the food: the pushed body is kept whole
and the outcome is Food. -/
lemma update_eq_of_food (p : Player) (f : Food)
    (h1 : GridPosition.new_from_move p.head.position p.direction ∉
      (p.head :: p.body).map Segment.position)
    (h2 : GridPosition.new_from_move p.head.position p.direction = f.position) :
    p.update f =
      { head := Segment.new (GridPosition.new_from_move p.head.position p.direction)
        body := p.head :: p.body
        direction := p.direction
        collision := some Collision.Food
        last_update_direction := p.direction } := by
  have hb : Player.collides_with_itself
      { p with body := p.head :: p.body
               head := Segment.new (GridPosition.new_from_move p.head.position p.direction) }
      = false := by
    rw [collides_false_iff]
    simpa using h1
  have he : Player.eats
      { p with body := p.head :: p.body
               head := Segment.new (GridPosition.new_from_move p.head.position p.direction) }
      f = true := by
    simp only [Player.eats, decide_eq_true_eq]
    exact h2
  simp only [Player.update]
  rw [hb, he]
  rfl

/-- The move is clean and misses the food: the oldest tail segment is
dropped and the outcome is none. -/
lemma update_eq_of_none (p : Player) (f : Food)
    (h1 : GridPosition.new_from_move p.head.position p.direction ∉
      (p.head :: p.body).map Segment.position)
    (h2 : GridPosition.new_from_move p.head.position p.direction ≠ f.position) :
    p.update f =
      { head := Segment.new (GridPosition.new_from_move p.head.position p.direction)
        body := (p.head :: p.body).dropLast
        direction := p.direction
        collision := none
        last_update_direction := p.direction } := by
  have hb : Player.collides_with_itself
      { p with body := p.head :: p.body
               head := Segment.new (GridPosition.new_from_move p.head.position p.direction) }
      = false := by
    rw [collides_false_iff]
    simpa using h1
  have he : Player.eats
      { p with body := p.head :: p.body
               head := Segment.new (GridPosition.new_from_move p.head.position p.direction) }
      f = false := by
    simp only [Player.eats, decide_eq_false_iff_not]
    exact h2
  simp only [Player.update]
  rw [hb, he]
  rfl

/-- After a move whose outcome is not Itself, the new head does not sit on
any segment of the new body. -/
lemma update_no_self_hit (p : Player) (f : Food)
    (h : (p.update f).collision ≠ some Collision.Itself) :
    (p.update f).collides_with_itself = false := by
  by_cases h1 : GridPosition.new_from_move p.head.position p.direction ∈
      (p.head :: p.body).map Segment.position
  · rw [update_eq_of_mem p f h1] at h
    simp at h
  · by_cases h2 : GridPosition.new_from_move p.head.position p.direction = f.position
    · rw [update_eq_of_food p f h1 h2, collides_false_iff]
      simpa using h1
    · rw [update_eq_of_none p f h1 h2, collides_false_iff]
      intro hmem
      exact h1 (List.map_subset Segment.position (List.dropLast_subset _) (by simpa using hmem))

/-! ### Case analysis of GameState.update and key_down_event -/

/-- A tick request arriving before the frame interval has elapsed changes
nothing at all. -/
lemma update_noop (s : GameState) (now : Nat) (r : GridPosition)
    (h1 : now - s.last_update < MS_PER_FRAME) :
    s.update now r = s := by
  simp only [GameState.update]
  rw [if_pos h1]

/-- An eligible tick in the game-over state performs the reset and nothing
else; in particular last_update keeps its old value. -/
lemma update_reset (s : GameState) (now : Nat) (r : GridPosition)
    (h1 : ¬ now - s.last_update < MS_PER_FRAME) (h2 : s.game_over = true) :
    s.update now r =
      { player := Player.new ⟨GRID_SIZE.1 / 4, GRID_SIZE.2 / 2⟩
        food := Food.new r
        game_over := false
        last_update := s.last_update } := by
  simp only [GameState.update]
  rw [if_neg h1, if_pos h2]
  rfl

/-- An eligible running tick whose move returns no collision: the player
advances, food and game-over flag are untouched, and now is recorded. -/
lemma update_run_none (s : GameState) (now : Nat) (r : GridPosition)
    (h1 : ¬ now - s.last_update < MS_PER_FRAME) (h2 : s.game_over = false)
    (hc : (s.player.update s.food).collision = none) :
    s.update now r =
      { player := s.player.update s.food
        food := s.food
        game_over := false
        last_update := now } := by
  simp only [GameState.update]
  rw [if_neg h1, h2, if_neg Bool.false_ne_true, hc]

/-- An eligible running tick whose move eats the food: the player advances
and the food moves to the freshly drawn cell. -/
lemma update_run_food (s : GameState) (now : Nat) (r : GridPosition)
    (h1 : ¬ now - s.last_update < MS_PER_FRAME) (h2 : s.game_over = false)
    (hc : (s.player.update s.food).collision = some Collision.Food) :
    s.update now r =
      { player := s.player.update s.food
        food := { position := r }
        game_over := false
        last_update := now } := by
  simp only [GameState.update]
  rw [if_neg h1, h2, if_neg Bool.false_ne_true, hc]
  rfl

/-- An eligible running tick whose move hits the body: the player advances
and the game-over flag is raised. -/
lemma update_run_itself (s : GameState) (now : Nat) (r : GridPosition)
    (h1 : ¬ now - s.last_update < MS_PER_FRAME) (h2 : s.game_over = false)
    (hc : (s.player.update s.food).collision = some Collision.Itself) :
    s.update now r =
      { player := s.player.update s.food
        food := s.food
        game_over := true
        last_update := now } := by
  simp only [GameState.update]
  rw [if_neg h1, h2, if_neg Bool.false_ne_true, hc]

/-- An eligible running tick always advances the player by one move and
records the tick time, whatever the collision outcome. -/
lemma update_run_player (s : GameState) (now : Nat) (r : GridPosition)
    (h1 : ¬ now - s.last_update < MS_PER_FRAME) (h2 : s.game_over = false) :
    (s.update now r).player = s.player.update s.food ∧
    (s.update now r).last_update = now := by
  cases hc : (s.player.update s.food).collision with
  | none =>
      rw [update_run_none s now r h1 h2 hc]
      exact ⟨rfl, rfl⟩
  | some c =>
      cases c with
      | Food =>
          rw [update_run_food s now r h1 h2 hc]
          exact ⟨rfl, rfl⟩
      | Itself =>
          rw [update_run_itself s now r h1 h2 hc]
          exact ⟨rfl, rfl⟩

/-- A key event never touches the geometry, the food, the flag or the
clock; only the facing direction can change. -/
lemma key_down_fields (s : GameState) (k : Option Direction) :
    (s.key_down_event k).player.head = s.player.head ∧
    (s.key_down_event k).player.body = s.player.body ∧
    (s.key_down_event k).game_over = s.game_over := by
  cases k with
  | none => exact ⟨rfl, rfl, rfl⟩
  | some d =>
      simp only [GameState.key_down_event]
      split
      · exact ⟨rfl, rfl, rfl⟩
      · exact ⟨rfl, rfl, rfl⟩

/-- Self-collision only looks at the head and the body. -/
lemma collides_congr (p q : Player) (hh : p.head = q.head) (hb : p.body = q.body) :
    p.collides_with_itself = q.collides_with_itself := by
  simp only [Player.collides_with_itself, hh, hb]

/-- Inverting both sides of a direction equation. -/
lemma inverse_eq_iff (d e : Direction) : d.inverse = e ↔ d = e.inverse := by
  cases d <;> cases e <;> decide

/-- Every reachable non-game-over state has its head off the body. -/
lemma reachable_no_self (s : GameState) (hs : Reachable s) :
    s.game_over = false → s.player.collides_with_itself = false := by
  induction hs with
  | init r t =>
      intro _
      rfl
  | tick s now r hs ih =>
      intro hover
      by_cases h1 : now - s.last_update < MS_PER_FRAME
      · rw [update_noop s now r h1] at hover ⊢
        exact ih hover
      · by_cases h2 : s.game_over = true
        · rw [update_reset s now r h1 h2]
          rfl
        · have h2f : s.game_over = false := by
            cases hgo : s.game_over
            · rfl
            · exact absurd hgo h2
          cases hc : (s.player.update s.food).collision with
          | none =>
              rw [update_run_none s now r h1 h2f hc]
              exact update_no_self_hit s.player s.food (by rw [hc]; exact Option.noConfusion)
          | some c =>
              cases c with
              | Food =>
                  rw [update_run_food s now r h1 h2f hc]
                  exact update_no_self_hit s.player s.food (by rw [hc]; simp)
              | Itself =>
                  rw [update_run_itself s now r h1 h2f hc] at hover
                  exact absurd hover (by simp)
  | key s k hs ih =>
      intro hover
      obtain ⟨hh, hb, hgo⟩ := key_down_fields s k
      rw [collides_congr _ s.player hh hb]
      exact ih (hgo ▸ hover)

/-- C1 counterexample: a player with head at (6,12), body [(7,12)], facing
Right. The move lands the head on the body segment, the outcome is Itself,
and the body length grows from 1 to 2 because the tail is popped only when
the outcome is none; the claim that the length stays constant on a HitSelf
outcome is false of the code. -/
theorem hit_self_grows_body :
    (Player.update
      { head := Segment.new ⟨6, 12⟩
        body := [Segment.new ⟨7, 12⟩]
        direction := Direction.Right
        collision := none
        last_update_direction := Direction.Right } (Food.new ⟨0, 0⟩)).collision =
      some Collision.Itself ∧
    (Player.update
      { head := Segment.new ⟨6, 12⟩
        body := [Segment.new ⟨7, 12⟩]
        direction := Direction.Right
        collision := none
        last_update_direction := Direction.Right } (Food.new ⟨0, 0⟩)).body.length = 1 + 1 := by
  decide

/-- C1 amended: one move changes the body length by exactly +1 when the
outcome is AteFood or HitSelf and leaves it constant exactly when the
outcome is none (only then is the oldest tail-end segment removed to
compensate the front insertion of the old head); the length never
decreases. -/
theorem body_length_change (p : Player) (f : Food) :
    ((p.update f).body.length =
      if (p.update f).collision = none then p.body.length else p.body.length + 1) ∧
    p.body.length ≤ (p.update f).body.length := by
  by_cases h1 : GridPosition.new_from_move p.head.position p.direction ∈
      (p.head :: p.body).map Segment.position
  · rw [update_eq_of_mem p f h1]
    simp
  · by_cases h2 : GridPosition.new_from_move p.head.position p.direction = f.position
    · rw [update_eq_of_food p f h1 h2]
      simp
    · rw [update_eq_of_none p f h1 h2]
      simp

/-- C2: the outcome of a move is Itself exactly when the new head cell
equals the position of some segment of the body after the old head has been
pushed onto its front (the just-pushed old head included), regardless of
where the food is; only otherwise, when the new head equals the food cell,
is the outcome Food, and otherwise it is none. -/
theorem collision_priority (p : Player) (f : Food) :
    (p.update f).collision =
      if GridPosition.new_from_move p.head.position p.direction ∈
          (p.head :: p.body).map Segment.position then some Collision.Itself
      else if GridPosition.new_from_move p.head.position p.direction = f.position then
        some Collision.Food
      else none := by
  by_cases h1 : GridPosition.new_from_move p.head.position p.direction ∈
      (p.head :: p.body).map Segment.position
  · rw [update_eq_of_mem p f h1, if_pos h1]
  · by_cases h2 : GridPosition.new_from_move p.head.position p.direction = f.position
    · rw [update_eq_of_food p f h1 h2, if_neg h1, if_pos h2]
    · rw [update_eq_of_none p f h1 h2, if_neg h1, if_neg h2]

/-- C3: in every session state reachable by ticks and key events in which
the game-over flag is false, the head coordinate is not the coordinate of
any body segment. -/
theorem head_not_in_body (s : GameState) (hs : Reachable s)
    (hover : s.game_over = false) :
    s.player.collides_with_itself = false ∧
    ∀ segment ∈ s.player.body, s.player.head.position ≠ segment.position := by
  have h := reachable_no_self s hs hover
  refine ⟨h, ?_⟩
  intro segment hmem heq
  rw [collides_false_iff] at h
  apply h
  rw [heq]
  exact List.mem_map_of_mem Segment.position hmem

/-- Witness for C3 at the freshly created session. -/
theorem head_not_in_body_witness :
    (GameState.new ⟨0, 0⟩ 0).player.collides_with_itself = false :=
  (head_not_in_body (GameState.new ⟨0, 0⟩ 0) (Reachable.init ⟨0, 0⟩ 0) rfl).1

/-- C4: a key event carrying a mapped direction leaves the facing unchanged
exactly when the candidate is the inverse of the direction used by the last
completed move, and otherwise sets the facing to the candidate; the guard
compares against last_update_direction, not against the possibly already
changed facing, since the whole state is quantified with no relation between
the two fields. -/
theorem reversal_guard (s : GameState) (d : Direction) :
    s.key_down_event (some d) =
      if d = s.player.last_update_direction.inverse then s
      else { s with player := { s.player with direction := d } } := by
  simp only [GameState.key_down_event, ne_eq, inverse_eq_iff]
  by_cases h : d = s.player.last_update_direction.inverse
  · simp [h]
  · simp [h]

/-- C5: after HitSelf has raised the game-over flag, the next eligible tick
only resets: the organism is recreated with head at (GRID_SIZE.0 / 4,
GRID_SIZE.1 / 2) = (6, 12), one trailing segment at (5, 12), facing the
default Right, the food is recreated exactly as at session start from the
fresh random draw, and the flag is cleared; no movement step happens on the
reset tick. -/
theorem restart_layout (s : GameState) (now : Nat) (r : GridPosition)
    (hover : s.game_over = true) (helig : MS_PER_FRAME ≤ now - s.last_update) :
    s.update now r =
      { player := Player.new ⟨GRID_SIZE.1 / 4, GRID_SIZE.2 / 2⟩
        food := Food.new r
        game_over := false
        last_update := s.last_update } ∧
    Player.new ⟨GRID_SIZE.1 / 4, GRID_SIZE.2 / 2⟩ =
      { head := Segment.new ⟨6, 12⟩
        body := [Segment.new ⟨5, 12⟩]
        direction := Direction.Right
        collision := none
        last_update_direction := Direction.Right } ∧
    (s.update now r).food = (GameState.new r s.last_update).food :=
  ⟨update_reset s now r (by omega) hover, by decide,
   by rw [update_reset s now r (by omega) hover]; rfl⟩

/-- Witness for C5: a concrete game-over session resets on an eligible
tick. -/
theorem restart_layout_witness :
    GameState.update
      { player := Player.new ⟨6, 12⟩, food := Food.new ⟨2, 2⟩,
        game_over := true, last_update := 0 } 125 ⟨9, 9⟩ =
      { player := Player.new ⟨GRID_SIZE.1 / 4, GRID_SIZE.2 / 2⟩
        food := Food.new ⟨9, 9⟩
        game_over := false
        last_update := 0 } ∧
    Player.new ⟨GRID_SIZE.1 / 4, GRID_SIZE.2 / 2⟩ =
      { head := Segment.new ⟨6, 12⟩
        body := [Segment.new ⟨5, 12⟩]
        direction := Direction.Right
        collision := none
        last_update_direction := Direction.Right } ∧
    (GameState.update
      { player := Player.new ⟨6, 12⟩, food := Food.new ⟨2, 2⟩,
        game_over := true, last_update := 0 } 125 ⟨9, 9⟩).food =
      (GameState.new ⟨9, 9⟩ 0).food :=
  restart_layout
    { player := Player.new ⟨6, 12⟩, food := Food.new ⟨2, 2⟩,
      game_over := true, last_update := 0 } 125 ⟨9, 9⟩ rfl (by decide)

/-- C8: a tick request arriving less than MS_PER_FRAME = 125 milliseconds
after the last accepted tick is a complete no-op on the session state, and
two tick requests less than the frame interval apart perform at most one
simulation step: after an eligible running tick at t1, a second request at
t2 with t2 - t1 below the interval changes nothing. -/
theorem tick_gating :
    (∀ (s : GameState) (now : Nat) (r : GridPosition),
        now - s.last_update < MS_PER_FRAME → s.update now r = s) ∧
    (∀ (s : GameState) (t1 t2 : Nat) (r1 r2 : GridPosition),
        MS_PER_FRAME ≤ t1 - s.last_update → s.game_over = false →
        t2 - t1 < MS_PER_FRAME →
        (s.update t1 r1).update t2 r2 = s.update t1 r1) ∧
    (∀ (s : GameState) (t1 t2 : Nat) (r1 : GridPosition),
        t2 - t1 < MS_PER_FRAME →
        ¬ ((MS_PER_FRAME ≤ t1 - s.last_update ∧ s.game_over = false) ∧
           (MS_PER_FRAME ≤ t2 - (s.update t1 r1).last_update ∧
            (s.update t1 r1).game_over = false))) := by
  refine ⟨fun s now r h => update_noop s now r h, ?_, ?_⟩
  · intro s t1 t2 r1 r2 h1 h2 h3
    have hl : (s.update t1 r1).last_update = t1 :=
      (update_run_player s t1 r1 (by omega) h2).2
    exact update_noop _ t2 r2 (by rw [hl]; exact h3)
  · rintro s t1 t2 r1 h3 ⟨⟨h1a, h1b⟩, ⟨h2a, _⟩⟩
    have hl : (s.update t1 r1).last_update = t1 :=
      (update_run_player s t1 r1 (by omega) h1b).2
    rw [hl] at h2a
    omega

/-- Witness for C8: on a fresh session, a request 10 ms in is a no-op, and
after an accepted tick at 125 ms a request at 130 ms changes nothing. -/
theorem tick_gating_witness :
    GameState.update (GameState.new ⟨0, 0⟩ 0) 10 ⟨1, 1⟩ = GameState.new ⟨0, 0⟩ 0 ∧
    ((GameState.new ⟨0, 0⟩ 0).update 125 ⟨1, 1⟩).update 130 ⟨2, 2⟩ =
      (GameState.new ⟨0, 0⟩ 0).update 125 ⟨1, 1⟩ :=
  ⟨tick_gating.1 (GameState.new ⟨0, 0⟩ 0) 10 ⟨1, 1⟩ (by decide),
   tick_gating.2.1 (GameState.new ⟨0, 0⟩ 0) 125 130 ⟨1, 1⟩ ⟨2, 2⟩ (by decide) rfl (by decide)⟩

/-- C9: every food placement (session start, reset after game over, and
relocation after an AteFood outcome) assigns exactly the drawn coordinate,
for every draw on the 25 by 25 grid, with no hypothesis excluding cells
occupied by the organism head or body; the assigned position is in
[0, 25) x [0, 25) whenever the draw respects the RNG range contract. -/
theorem food_relocation_no_exclusion (r : GridPosition) (hr : inGrid r) :
    (∀ t, (GameState.new r t).food.position = r) ∧
    (∀ (s : GameState) (now : Nat), s.game_over = true →
        MS_PER_FRAME ≤ now - s.last_update →
        (s.update now r).food.position = r ∧ inGrid (s.update now r).food.position) ∧
    (∀ (s : GameState) (now : Nat), s.game_over = false →
        MS_PER_FRAME ≤ now - s.last_update →
        (s.player.update s.food).collision = some Collision.Food →
        (s.update now r).food.position = r ∧ inGrid (s.update now r).food.position) := by
  refine ⟨fun t => rfl, ?_, ?_⟩
  · intro s now h1 h2
    rw [update_reset s now r (by omega) h1]
    exact ⟨rfl, hr⟩
  · intro s now h1 h2 hc
    rw [update_run_food s now r (by omega) h1 hc]
    exact ⟨rfl, hr⟩

/-- Witness for C9: an AteFood tick relocates the food to the drawn cell
(6, 12), a cell occupied by the organism body right after the move. -/
theorem food_relocation_no_exclusion_witness :
    (GameState.update
      { player := { head := Segment.new ⟨6, 12⟩
                    body := [Segment.new ⟨5, 12⟩]
                    direction := Direction.Right
                    collision := none
                    last_update_direction := Direction.Right }
        food := Food.new ⟨7, 12⟩
        game_over := false
        last_update := 0 }
      125 ⟨6, 12⟩).food.position = ⟨6, 12⟩ ∧
    inGrid (GameState.update
      { player := { head := Segment.new ⟨6, 12⟩
                    body := [Segment.new ⟨5, 12⟩]
                    direction := Direction.Right
                    collision := none
                    last_update_direction := Direction.Right }
        food := Food.new ⟨7, 12⟩
        game_over := false
        last_update := 0 }
      125 ⟨6, 12⟩).food.position :=
  (food_relocation_no_exclusion ⟨6, 12⟩ (by refine ⟨?_, ?_, ?_, ?_⟩ <;> decide)).2.2
    { player := { head := Segment.new ⟨6, 12⟩
                  body := [Segment.new ⟨5, 12⟩]
                  direction := Direction.Right
                  collision := none
                  last_update_direction := Direction.Right }
      food := Food.new ⟨7, 12⟩
      game_over := false
      last_update := 0 }
    125 rfl (by decide) (by decide)

/-- C10: the reset tick does not touch last_update (the reset branch returns
before the timestamp assignment), so it stays at the time recorded by the
tick that caused the game over; hence any later tick request, however soon
after the reset, is still eligible and performs a movement step. -/
theorem reset_keeps_timestamp (s : GameState) (now now2 : Nat) (r r2 : GridPosition)
    (hover : s.game_over = true) (helig : MS_PER_FRAME ≤ now - s.last_update)
    (hmono : now ≤ now2) :
    (s.update now r).last_update = s.last_update ∧
    MS_PER_FRAME ≤ now2 - (s.update now r).last_update ∧
    ((s.update now r).update now2 r2).player =
      (s.update now r).player.update (s.update now r).food ∧
    ((s.update now r).update now2 r2).last_update = now2 := by
  have hres := update_reset s now r (by omega) hover
  have hl : (s.update now r).last_update = s.last_update := by rw [hres]
  have hg : (s.update now r).game_over = false := by rw [hres]
  have helig2 : MS_PER_FRAME ≤ now2 - (s.update now r).last_update := by
    rw [hl]
    omega
  obtain ⟨hp, ht⟩ := update_run_player (s.update now r) now2 r2 (by omega) hg
  exact ⟨hl, helig2, hp, ht⟩

/-- Witness for C10: a reset at 125 ms keeps last_update = 0, and a second
request also at 125 ms already performs a movement step. -/
theorem reset_keeps_timestamp_witness :
    (GameState.update
      { player := Player.new ⟨6, 12⟩, food := Food.new ⟨2, 2⟩,
        game_over := true, last_update := 0 } 125 ⟨1, 1⟩).last_update = 0 ∧
    MS_PER_FRAME ≤ 125 - (GameState.update
      { player := Player.new ⟨6, 12⟩, food := Food.new ⟨2, 2⟩,
        game_over := true, last_update := 0 } 125 ⟨1, 1⟩).last_update ∧
    ((GameState.update
      { player := Player.new ⟨6, 12⟩, food := Food.new ⟨2, 2⟩,
        game_over := true, last_update := 0 } 125 ⟨1, 1⟩).update 125 ⟨2, 2⟩).player =
      (GameState.update
        { player := Player.new ⟨6, 12⟩, food := Food.new ⟨2, 2⟩,
          game_over := true, last_update := 0 } 125 ⟨1, 1⟩).player.update
        (GameState.update
          { player := Player.new ⟨6, 12⟩, food := Food.new ⟨2, 2⟩,
            game_over := true, last_update := 0 } 125 ⟨1, 1⟩).food ∧
    ((GameState.update
      { player := Player.new ⟨6, 12⟩, food := Food.new ⟨2, 2⟩,
        game_over := true, last_update := 0 } 125 ⟨1, 1⟩).update 125 ⟨2, 2⟩).last_update = 125 :=
  reset_keeps_timestamp
    { player := Player.new ⟨6, 12⟩, food := Food.new ⟨2, 2⟩,
      game_over := true, last_update := 0 } 125 125 ⟨1, 1⟩ ⟨2, 2⟩ rfl (by decide) (by decide)

end Snake
